import Mathlib

/-!
Shallow embedding of the coolbox13/supermarket-scraper repository.

Each definition translates one function of the Python source:
- `JumboScraper.*` embeds `General Scraper/jumbo_scraper.py`.
- `AHScraper.*` embeds `General Scraper/ah_scraper.py`.
- `AldiScraper.*` embeds `General Scraper/aldi_scraper.py`.
- `EnhancedJumboScraper.*` embeds `generalScraper/jumbo_scraper.py`.
- `PlusScraper.*` embeds `generalScraper/plus_scraper.py`.
- `JumboConnector.*` embeds `generalScraper/checkjumbo.py`.
- `ScraperRunner.*` embeds `generalScraper/scraper_runner.py`.

Network fetches are modelled as explicit inputs (lists of page results or
functions from a pagination position to a page); JSON files are modelled as
the values they contain; exceptions become `Except` / sum-type results.
Logging and sleeping have no observable state, except that the retry delays
passed to `asyncio.sleep` inside `scrape_page` are recorded as a trace so
that statements about the delay schedule can be made.
-/

set_option maxHeartbeats 1000000

/-- A Jumbo product record; only the dedup key `id`
    (`p.get("id")` in the source) is modelled. -/
structure JumboProduct where
  id : Nat
  deriving DecidableEq

/-- Outcome of one HTTP attempt inside `JumboScraper.scrape_page`:
    a successful response carrying the page's product list, a 504
    gateway timeout (`aiohttp.ClientResponseError` with status 504),
    or any other error (non-504 `ClientResponseError` or any other
    exception), which the source treats identically (log and return). -/
inductive Attempt where
  | ok (products : List JumboProduct)
  | timeout504
  | fatal
  deriving DecidableEq

/-- The four distinct return points of `JumboScraper.scrape_page`:
    `scraped` = returned `True` after writing a page;
    `exhausted` = returned `False` at "No products found at offset";
    `fatalError` = returned `False` from an error handler;
    `retriesExhausted` = fell off the retry loop, returning `None`.
    The caller (`scrape`) only tests truthiness: `scraped` is truthy,
    the other three are falsy. -/
inductive PageResult where
  | scraped
  | exhausted
  | fatalError
  | retriesExhausted
  deriving DecidableEq

namespace JumboScraper

/-- The mutable state of a `JumboScraper` instance together with the
    files it owns: `output` is the content of `data/jumbo_products.json`,
    `disk_scraped_products` / `disk_last_offset` the content of
    `data/jumbo_scrape_progress.json` as of the last `save_progress`. -/
structure State where
  scraped_products : Finset Nat
  output : List JumboProduct
  last_offset : Nat
  total_scraped_items : Nat
  disk_scraped_products : Finset Nat
  disk_last_offset : Nat
  deriving DecidableEq

/-- Fresh state: no progress file, output file cleared to `[]`. -/
def initState : State := ⟨∅, [], 0, 0, ∅, 0⟩

/-- `JumboScraper.write_products`: early-return on an empty list,
    otherwise read the output file and extend it. -/
def write_products (existing new_products : List JumboProduct) : List JumboProduct :=
  if new_products = [] then existing else existing ++ new_products

/-- The default page size `self.limit = 30`. -/
def limit : Nat := 30

/-- The body of the success branch of `scrape_page` (lines 70-74):
    filter the page against `scraped_products`, append the new records via
    `write_products`, union their ids into `scraped_products`, bump the total. -/
def accept_page (st : State) (products : List JumboProduct) : State :=
  let new_products := products.filter fun p => decide (p.id ∉ st.scraped_products)
  { st with
    output := write_products st.output new_products
    scraped_products := st.scraped_products ∪ (new_products.map JumboProduct.id).toFinset
    total_scraped_items := st.total_scraped_items + new_products.length }

/-- `JumboScraper.scrape_page`: `retries = 3`; on a 504 decrement
    `retries`, sleep 2 seconds (recorded in the returned delay trace) and
    retry; on an empty page or any other error return falsy without
    touching state; on success accept the page; when the retry loop
    exhausts, fall through returning `None` (`retriesExhausted`). -/
def scrape_page (attempts : List Attempt) (retries : Nat) (st : State) :
    State × PageResult × List Nat :=
  match retries with
  | 0 => (st, PageResult.retriesExhausted, [])
  | r + 1 =>
    match attempts with
    | [] => (st, PageResult.retriesExhausted, [])
    | Attempt.ok [] :: _ => (st, PageResult.exhausted, [])
    | Attempt.ok (p :: ps) :: _ => (accept_page st (p :: ps), PageResult.scraped, [])
    | Attempt.timeout504 :: rest =>
      let x := scrape_page rest r st
      (x.1, x.2.1, 2 :: x.2.2)
    | Attempt.fatal :: _ => (st, PageResult.fatalError, [])
termination_by structural retries

/-- `JumboScraper.save_progress`: rewrite the progress file with the
    current `scraped_products` and `last_offset`. -/
def save_progress (st : State) : State :=
  { st with
    disk_scraped_products := st.scraped_products
    disk_last_offset := st.last_offset }

/-- `JumboScraper.scrape`: loop `scrape_page`; while truthy, advance
    `last_offset` by `limit` and `save_progress`; on the first falsy result
    break and `save_progress` once more.  The input list supplies the
    attempt sequence offered to each successive `scrape_page` call; the
    driver also reports the last `scrape_page` result (`none` when the
    modelled session ends while the loop would continue). -/
def scrape : List (List Attempt) → State → State × Option PageResult
  | [], st => (save_progress st, none)
  | attempts :: rest, st =>
    let x := scrape_page attempts 3 st
    match x.2.1 with
    | PageResult.scraped =>
      scrape rest (save_progress { x.1 with last_offset := x.1.last_offset + limit })
    | r => (save_progress x.1, some r)

/-- The states of `scrape` at each loop boundary: the state right after
    an accepted page's `save_progress`, i.e. the state in force when the
    next page is fetched. -/
def scrape_trace : List (List Attempt) → State → List State
  | [], _ => []
  | attempts :: rest, st =>
    let x := scrape_page attempts 3 st
    match x.2.1 with
    | PageResult.scraped =>
      let st' := save_progress { x.1 with last_offset := x.1.last_offset + limit }
      st' :: scrape_trace rest st'
    | _ => []

/-- `JumboScraper.__init__` lines 31-34: the output file is reset to `[]`
    exactly when the loaded `last_offset` is `0`; otherwise the previous
    content is kept. -/
def init_output_file (prev : List JumboProduct) (last_offset : Nat) : List JumboProduct :=
  if last_offset = 0 then [] else prev

end JumboScraper

/-- Content of a JSON progress file as seen by a loader: missing,
    unparseable (raises `json.JSONDecodeError` on `json.load`), or a
    well-formed list of keys. -/
inductive ProgressFile (α : Type) where
  | absent
  | corrupt
  | valid (ids : List α)
  deriving DecidableEq

/-- The exception raised by `json.load` on a corrupt file. -/
inductive LoadError where
  | jsonDecodeError
  deriving DecidableEq

/-- An AH product record; only the dedup key `webshopId` is modelled.
    The source is duck-typed, so keys live in one value space shared with
    subcategory names; both are modelled as strings. -/
structure AHProduct where
  webshopId : String
  deriving DecidableEq

namespace AHScraper

/-- The mutable state of an `AHScraper` instance: `scraped_ids` (a single
    set holding both product webshopIds and completed subcategory names),
    the content of `data/ah_products.json` (`output`), the in-run
    `all_products` accumulator, and the progress file as of the last
    `save_progress` (`disk_scraped_ids`). -/
structure State where
  scraped_ids : Finset String
  output : List AHProduct
  all_products : List AHProduct
  total_scraped_items : Nat
  disk_scraped_ids : Finset String
  deriving DecidableEq

/-- Fresh state: no progress file, no output file. -/
def initState : State := ⟨∅, [], [], 0, ∅⟩

/-- `AHScraper.__init__` lines 63-66: `json.load` of the progress file is
    not wrapped in any handler, so a corrupt file propagates
    `JSONDecodeError` out of the constructor. -/
def load_progress : ProgressFile String → Except LoadError (Finset String)
  | ProgressFile.absent => Except.ok ∅
  | ProgressFile.corrupt => Except.error LoadError.jsonDecodeError
  | ProgressFile.valid ids => Except.ok ids.toFinset

/-- `AHScraper.write_products`: create the output file with `[]` when
    missing, then read it and extend it with the new products. -/
def write_products (file : Option (List AHProduct)) (products : List AHProduct) :
    List AHProduct :=
  file.getD [] ++ products

/-- One iteration of the page loop in `scrape_subcategory` (lines 101-109):
    filter against `scraped_ids`, extend `all_products`, write to the output
    file, union the new webshopIds into `scraped_ids`, bump the totals. -/
def process_page (st : State) (products : List AHProduct) : State :=
  let new_products := products.filter fun p => decide (p.webshopId ∉ st.scraped_ids)
  { st with
    all_products := st.all_products ++ new_products
    output := write_products (some st.output) new_products
    scraped_ids := st.scraped_ids ∪ (new_products.map AHProduct.webshopId).toFinset
    total_scraped_items := st.total_scraped_items + new_products.length }

/-- The `while True` page loop of `scrape_subcategory`: fetch the next
    page; break on an empty product list, otherwise process it and
    continue.  The input list supplies the successive fetch results. -/
def subcategory_pages : List (List AHProduct) → State → State
  | [], st => st
  | page :: rest, st =>
    if page = [] then st else subcategory_pages rest (process_page st page)

/-- `AHScraper.scrape_subcategory`: skip when the subcategory *name* is
    already in `scraped_ids`; otherwise run the page loop and finally add
    the subcategory name to `scraped_ids`. -/
def scrape_subcategory (name : String) (pages : List (List AHProduct)) (st : State) : State :=
  if name ∈ st.scraped_ids then st
  else
    let st' := subcategory_pages pages st
    { st' with scraped_ids := insert name st'.scraped_ids }

/-- `AHScraper.save_progress`: rewrite the progress file with
    `scraped_ids`. -/
def save_progress (st : State) : State :=
  { st with disk_scraped_ids := st.scraped_ids }

/-- `AHScraper.scrape` after authentication and category listing: drive
    every (flattened) subcategory in order, then `save_progress` once at
    the very end. -/
def scrape (subcategories : List (String × List (List AHProduct))) (st : State) : State :=
  save_progress (subcategories.foldl (fun s sc => scrape_subcategory sc.1 sc.2 s) st)

end AHScraper

/-- An Aldi product record; only the dedup key `articleId` is modelled. -/
structure AldiProduct where
  articleId : String
  deriving DecidableEq

namespace AldiScraper

/-- Content of `data/aldi_scrape_progress.json` as the loader
    distinguishes it: missing, unparseable, a JSON dict, or valid JSON
    that is not a dict. -/
inductive ProgressContent where
  | absent
  | corrupt
  | validDict (scraped_products : List String) (scraped_categories : List String)
  | validNonDict
  deriving DecidableEq

/-- `AldiScraper.__init__` lines 26-37: `json.load` is wrapped in
    `try/except JSONDecodeError`, and non-dict content is rejected with a
    warning; in both cases progress resets to empty sets. -/
def load_progress : ProgressContent → Finset String × Finset String
  | ProgressContent.absent => (∅, ∅)
  | ProgressContent.corrupt => (∅, ∅)
  | ProgressContent.validNonDict => (∅, ∅)
  | ProgressContent.validDict ps cs => (ps.toFinset, cs.toFinset)

/-- The state of an `AldiScraper` instance: the two seen-sets and the
    content of `data/aldi_products.json`. -/
structure State where
  scraped_products : Finset String
  scraped_categories : Finset String
  output : List AldiProduct
  deriving DecidableEq

/-- `AldiScraper.__init__` lines 22-37: the output file is cleared to `[]`
    unconditionally ("Clear output file at the start of a new scrape"),
    then progress is loaded. -/
def init (_prevOutput : List AldiProduct) (progress : ProgressContent) : State :=
  ⟨(load_progress progress).1, (load_progress progress).2, []⟩

end AldiScraper

/-- An Enhanced Jumbo product; `product.get('id')` may be absent
    (`None`), modelled as `Option Nat`. -/
structure EJProduct where
  id : Option Nat
  deriving DecidableEq

namespace EnhancedJumboScraper

/-- The envelope written by `scrape_category`:
    `{'product': product, 'mainCategory': category title}`. -/
structure Entry where
  product : EJProduct
  mainCategory : String
  deriving DecidableEq

/-- The state of an `EnhancedJumboScraper` instance: the seen-set and the
    content of `data/jumbo_products.json`, plus the loop's `offset`. -/
structure State where
  scraped_products : Finset Nat
  products_file : List Entry
  offset : Nat
  deriving DecidableEq

/-- Fresh state. -/
def initState : State := ⟨∅, [], 0⟩

/-- `EnhancedJumboScraper.load_progress`: `json.load` wrapped in
    `try/except JSONDecodeError`; a corrupt file starts fresh. -/
def load_progress : ProgressFile Nat → Finset Nat
  | ProgressFile.absent => ∅
  | ProgressFile.corrupt => ∅
  | ProgressFile.valid ids => ids.toFinset

/-- The per-product body of the loop in `scrape_category` (lines 114-124):
    skip a falsy or already-seen id, otherwise record the envelope and add
    the id to the seen-set. -/
def add_product (category_title : String) (st : State) (p : EJProduct) : State :=
  match p.id with
  | none => st
  | some i =>
    if i ∈ st.scraped_products then st
    else
      { st with
        products_file := st.products_file ++ [⟨p, category_title⟩]
        scraped_products := insert i st.scraped_products }

/-- One page of `scrape_category`: process each product in order
    (`save_products`/`save_progress` flush the same data, so the file
    content equals the accumulated entries). -/
def process_page (category_title : String) (products : List EJProduct) (st : State) : State :=
  products.foldl (add_product category_title) st

/-- The `while True` loop of `scrape_category`, driven by `fetch` mapping
    the current `offset` to the returned product list.  `fuel` bounds the
    number of iterations observed; `none` means the loop was still running
    when the fuel ran out, `some st` that it exited (`break` on an empty
    product list) in state `st`. -/
def scrape_category_pages (fetch : Nat → List EJProduct) (category_title : String) :
    Nat → State → Option State
  | 0, _ => none
  | fuel + 1, st =>
    let products := fetch st.offset
    if products = [] then some st
    else
      scrape_category_pages fetch category_title fuel
        { process_page category_title products st with offset := st.offset + products.length }

/-- The category loop never exits, however long it is observed. -/
def loops_forever (fetch : Nat → List EJProduct) (category_title : String) : Prop :=
  ∀ fuel, scrape_category_pages fetch category_title fuel initState = none

end EnhancedJumboScraper

/-- A Plus product record; the scraper inspects no key at all, so a
    single opaque field stands for the record. -/
structure PlusProduct where
  sku : String
  deriving DecidableEq

namespace PlusScraper

/-- The `while page_number <= total_pages` loop of
    `scrape_category_products`: fetch the page, extend `all_products`
    with every returned record (no filtering), take `TotalPages` from the
    response, advance the page number.  `resp` maps a page number to
    `(ProductList.List, TotalPages)`; `fuel` bounds the iterations. -/
def pages_loop (resp : Nat → List PlusProduct × Nat) :
    Nat → Nat → Nat → List PlusProduct → List PlusProduct
  | 0, _, _, acc => acc
  | fuel + 1, page_number, total_pages, acc =>
    if page_number ≤ total_pages then
      pages_loop resp fuel (page_number + 1) (resp page_number).2 (acc ++ (resp page_number).1)
    else acc

/-- `scrape_category_products`: `page_number = 1`, `total_pages = 1`
    initially, accumulate `all_products` from `[]`. -/
def scrape_category_products (resp : Nat → List PlusProduct × Nat) (fuel : Nat) :
    List PlusProduct :=
  pages_loop resp fuel 1 1 []

end PlusScraper

namespace JumboConnector

/-- The `products` object of a Jumbo search response: the page's `data`
    and the reported `total`. -/
structure SearchPage where
  data : List JumboProduct
  total : Nat
  deriving DecidableEq

/-- `JumboConnector.search_products` (checkjumbo.py lines 27-40): raise
    `PaginationLimitReached` (modelled as `Except.error ()`) when
    `(page + 1 * size) > 30`, otherwise return the response for that
    page.  `resp` maps the page number to the server's response. -/
def search_products (resp : Nat → SearchPage) (page size : Nat) : Except Unit SearchPage :=
  if page + 1 * size > 30 then Except.error () else Except.ok (resp page)

/-- The `for page in range(1, ceil(total / size))` loop of
    `search_all_products`: each iteration calls `search_products` with the
    *default* size 30 (the caller popped `size` out of `kwargs`), catches
    `PaginationLimitReached` by returning what was yielded so far, and
    otherwise yields the page's data. -/
def search_all_loop (resp : Nat → SearchPage) : List Nat → List JumboProduct → List JumboProduct
  | [], acc => acc
  | page :: rest, acc =>
    match search_products resp page 30 with
    | Except.error _ => acc
    | Except.ok r => search_all_loop resp rest (acc ++ r.data)

/-- `math.ceil (a / b)` on naturals. -/
def ceil_div (a b : Nat) : Nat := (a + b - 1) / b

/-- `JumboConnector.search_all_products`: `size = kwargs.pop('size', None)
    or 30` (so `None` and `0` both become 30); the first call
    `search_products(page=0, size=size)` is *outside* the `try`, so its
    `PaginationLimitReached` propagates; subsequent pages run through
    `search_all_loop`.  The result is the full list the generator yields. -/
def search_all_products (resp : Nat → SearchPage) (sizeArg : Option Nat) :
    Except Unit (List JumboProduct) :=
  let size := match sizeArg with
    | none => 30
    | some 0 => 30
    | some s => s
  match search_products resp 0 size with
  | Except.error e => Except.error e
  | Except.ok r0 =>
    Except.ok (search_all_loop resp (List.range' 1 (ceil_div r0.total size - 1)) r0.data)

end JumboConnector

namespace ScraperRunner

/-- The per-shop status reported in the run summary. -/
inductive RunStatus where
  | success
  | failed
  deriving DecidableEq

/-- One entry of the summary dict built by `safe_scrape`:
    `{'total_products': ..., 'status': ...}`. -/
structure SummaryEntry where
  total_products : Nat
  status : RunStatus
  deriving DecidableEq

/-- What a shop's scraper does when invoked by `run_single_scraper`:
    produce a record list, or raise some exception (import failure,
    missing `scrape` attribute, `NameError`, or any error during the
    scrape — all land in the same handlers). -/
inductive ScrapeOutcome where
  | ok (records : List Nat)
  | exn
  deriving DecidableEq

/-- `run_single_scraper`: the whole body sits in `try/except`, so an
    exception is logged and turned into `None`; success returns the
    record list. -/
def run_single_scraper (behavior : String → ScrapeOutcome) (shop : String) :
    Option (List Nat) :=
  match behavior shop with
  | ScrapeOutcome.ok rs => some rs
  | ScrapeOutcome.exn => none

/-- `safe_scrape`: store `{'total_products': len(results), 'status':
    'success'}` or `{'total_products': 0, 'status': 'failed'}` under the
    shop's key in the shared result dict (modelled as an association
    list in completion order). -/
def safe_scrape (behavior : String → ScrapeOutcome) (shop : String)
    (result_dict : List (String × SummaryEntry)) : List (String × SummaryEntry) :=
  match run_single_scraper behavior shop with
  | some rs => result_dict ++ [(shop, ⟨rs.length, RunStatus.success⟩)]
  | none => result_dict ++ [(shop, ⟨0, RunStatus.failed⟩)]

/-- `run_scrapers_parallel`: one `safe_scrape` worker per shop, each
    writing only its own key of the shared dict; the processes share no
    other state, so the resulting summary is the one obtained by
    collecting every worker's single entry. -/
def run_scrapers_parallel (behavior : String → ScrapeOutcome) (shops : List String) :
    List (String × SummaryEntry) :=
  shops.foldl (fun acc shop => safe_scrape behavior shop acc) []

/-- The summary entry `safe_scrape` produces for a given outcome. -/
def entry_of : ScrapeOutcome → SummaryEntry
  | ScrapeOutcome.ok rs => ⟨rs.length, RunStatus.success⟩
  | ScrapeOutcome.exn => ⟨0, RunStatus.failed⟩

end ScraperRunner

/-! Concrete fixtures used by witnesses and counterexamples. -/

/-- A Plus category response that reports two pages, both holding the
    same record. -/
def plusDupResp : Nat → List PlusProduct × Nat := fun _ => ([⟨"k"⟩], 2)

/-- A mocked Enhanced Jumbo connector that returns the same non-empty
    page forever. -/
def ejConstFetch : Nat → List EJProduct := fun _ => [⟨some 1⟩]

/-- A mocked Enhanced Jumbo connector with one non-empty page at offset 0
    and nothing afterwards. -/
def ejStopFetch : Nat → List EJProduct := fun o => if o = 0 then [⟨some 5⟩] else []

/-- The Enhanced Jumbo state after scraping `ejStopFetch`'s single page. -/
def ejStopState : EnhancedJumboScraper.State := ⟨{5}, [⟨⟨some 5⟩, "c"⟩], 1⟩

/-- A two-page Jumbo session: one page with one product, then an empty
    page. -/
def jumboOnePage : List (List Attempt) := [[Attempt.ok [⟨1⟩]], [Attempt.ok []]]

/-- The Jumbo state after accepting `jumboOnePage`'s first page and
    saving progress. -/
def jumboOnePageState : JumboScraper.State := ⟨{1}, [⟨1⟩], 30, 1, {1}, 30⟩

/-- Scraper behaviors for the orchestrator: the `ah` worker raises, every
    other worker returns two records. -/
def runnerBehavior : String → ScraperRunner.ScrapeOutcome :=
  fun shop => if shop = "ah" then ScraperRunner.ScrapeOutcome.exn
              else ScraperRunner.ScrapeOutcome.ok [10, 20]

/-- A Jumbo search backend whose every response reports `total = 31`
    products and returns one product per page. -/
def resp31 : Nat → JumboConnector.SearchPage := fun _ => ⟨[⟨7⟩], 31⟩

/-- AH input colliding the two key namespaces: subcategory `S1` returns a
    product whose webshopId equals the name of the later subcategory
    `Fruit`; subcategory `S2` returns a product whose webshopId equals the
    completed subcategory name `S1`, plus a genuinely new product `z`. -/
def ahCollisionInput : List (String × List (List AHProduct)) :=
  [("S1", [[⟨"Fruit"⟩]]), ("Fruit", [[⟨"y"⟩]]), ("S2", [[⟨"S1"⟩, ⟨"z"⟩]])]

/-! Theorems. -/

/-- C1 (counterexample): the Plus scraper's `scrape_category_products`
    appends every returned record with no SeenSet filtering, so a key
    returned on two pages is stored twice in its output. -/
theorem plus_scraper_stores_duplicate_key :
    PlusScraper.scrape_category_products plusDupResp 5 = [⟨"k"⟩, ⟨"k"⟩] ∧
    ¬ ((PlusScraper.scrape_category_products plusDupResp 5).map PlusProduct.sku).Nodup :=
  ⟨rfl, by decide⟩

/-- C2: the three-page scenario on the Jumbo driver.  page1 = ids 1,2;
    page2 = ids 2,3; page3 empty.  The output file holds exactly the
    records 1, 2, 3 once each in acceptance order, the seen-set is
    {1,2,3} and is persisted, and the driver stopped at the
    empty-page (exhausted) return of `scrape_page`. -/
theorem jumbo_three_page_scenario :
    (JumboScraper.scrape
        [[Attempt.ok [⟨1⟩, ⟨2⟩]], [Attempt.ok [⟨2⟩, ⟨3⟩]], [Attempt.ok []]]
        JumboScraper.initState) =
      (⟨{1, 2, 3}, [⟨1⟩, ⟨2⟩, ⟨3⟩], 60, 3, {1, 2, 3}, 60⟩, some PageResult.exhausted) := by
  decide

/-- C3 (counterexample): the AH scraper persists progress only in the
    single `save_progress` at the very end of `scrape`; after a whole
    subcategory of two accepted pages the on-disk checkpoint is still
    empty, so an interruption here re-does two pages, not at most one. -/
theorem ah_checkpoint_not_persisted_per_page :
    (AHScraper.scrape_subcategory "cat" [[⟨"a"⟩], [⟨"b"⟩]] AHScraper.initState).scraped_ids =
      {"a", "b", "cat"} ∧
    (AHScraper.scrape_subcategory "cat" [[⟨"a"⟩], [⟨"b"⟩]] AHScraper.initState).disk_scraped_ids =
      ∅ := by
  decide

/-- C5 (counterexample): three consecutive 504s exhaust the retry loop of
    `JumboScraper.scrape_page`; the delay passed to `asyncio.sleep` is the
    constant 2 on every retry, so the delay schedule is not increasing. -/
theorem jumbo_retry_delay_not_increasing :
    JumboScraper.scrape_page [Attempt.timeout504, Attempt.timeout504, Attempt.timeout504] 3
        JumboScraper.initState =
      (JumboScraper.initState, PageResult.retriesExhausted, [2, 2, 2]) ∧
    ¬ List.Chain' (· < ·) [2, 2, 2] :=
  ⟨rfl, by simp⟩

/-- C5 (amended): on 504 the same page is retried up to 3 attempts with a
    fixed 2-second delay before each retry; when all three attempts time
    out `scrape_page` returns falsy (`None`) without touching state, and
    the driver saves progress and ends the run normally; a non-504 error
    is never retried and ends the run the same way — no error aborts the
    worker. -/
theorem jumbo_retry_bound_and_stop (st : JumboScraper.State) (rest : List Attempt) :
    JumboScraper.scrape_page
        (Attempt.timeout504 :: Attempt.timeout504 :: Attempt.timeout504 :: rest) 3 st =
      (st, PageResult.retriesExhausted, [2, 2, 2]) ∧
    JumboScraper.scrape_page (Attempt.fatal :: rest) 3 st = (st, PageResult.fatalError, []) ∧
    (JumboScraper.scrape
        [Attempt.timeout504 :: Attempt.timeout504 :: Attempt.timeout504 :: rest] st) =
      (JumboScraper.save_progress st, some PageResult.retriesExhausted) ∧
    (JumboScraper.scrape [Attempt.fatal :: rest] st) =
      (JumboScraper.save_progress st, some PageResult.fatalError) :=
  ⟨rfl, rfl, rfl, rfl⟩

/-- C6 (counterexample): the AH scraper's constructor loads the progress
    file without any exception handler, so a corrupt checkpoint raises
    `JSONDecodeError` and worker startup crashes. -/
theorem ah_corrupt_checkpoint_raises :
    AHScraper.load_progress ProgressFile.corrupt = Except.error LoadError.jsonDecodeError :=
  rfl

/-- C6 (amended): the Aldi scraper recovers from a missing, unparseable
    or non-dict checkpoint by resetting to empty progress without
    raising, and the Enhanced Jumbo scraper likewise starts fresh on a
    corrupt file; the AH scraper's loader has no handler, so a corrupt
    file raises `JSONDecodeError` out of startup. -/
theorem corrupt_checkpoint_recovery_by_scraper :
    AldiScraper.load_progress AldiScraper.ProgressContent.corrupt = (∅, ∅) ∧
    AldiScraper.load_progress AldiScraper.ProgressContent.validNonDict = (∅, ∅) ∧
    AldiScraper.load_progress AldiScraper.ProgressContent.absent = (∅, ∅) ∧
    EnhancedJumboScraper.load_progress ProgressFile.corrupt = ∅ ∧
    AHScraper.load_progress ProgressFile.corrupt = Except.error LoadError.jsonDecodeError :=
  ⟨rfl, rfl, rfl, rfl, rfl⟩

/-- C7 (counterexample): the Aldi scraper's constructor clears the output
    file unconditionally, so a record stored by a previous run is gone
    after loading the scraper again even though no fresh-run reset was
    requested. -/
theorem aldi_init_discards_previous_output :
    (AldiScraper.init [⟨"x"⟩] AldiScraper.ProgressContent.absent).output = [] ∧
    ([⟨"x"⟩] : List AldiProduct) ≠ [] :=
  ⟨rfl, by decide⟩

/-- C10: in the AH scraper, subcategory completion markers and product
    webshopIds share the single set `scraped_ids`.  On
    `ahCollisionInput`, the never-visited subcategory `Fruit` is skipped
    because a product with webshopId `Fruit` was seen earlier (its
    product `y` never reaches the output), and the new product with
    webshopId `S1` is excluded because the completed subcategory `S1`
    put its name into the set; only `Fruit` and `z` are stored. -/
theorem ah_key_namespace_collision :
    (AHScraper.scrape ahCollisionInput AHScraper.initState).output = [⟨"Fruit"⟩, ⟨"z"⟩] ∧
    (⟨"y"⟩ : AHProduct) ∉ (AHScraper.scrape ahCollisionInput AHScraper.initState).output ∧
    (⟨"S1"⟩ : AHProduct) ∉ (AHScraper.scrape ahCollisionInput AHScraper.initState).output := by
  decide

/-- Helper: the early-return in `write_products` is equivalent to a plain
    append. -/
theorem jumbo_write_products_eq_append (existing new_products : List JumboProduct) :
    JumboScraper.write_products existing new_products = existing ++ new_products := by
  cases new_products <;> simp [JumboScraper.write_products]

/-- Helper invariant for C1: if the output keys are duplicate-free and
    all of them are in the seen-set, a run of the Jumbo driver over pages
    whose keys are individually duplicate-free keeps the output keys
    duplicate-free. -/
theorem jumbo_scrape_nodup_aux (pages : List (List JumboProduct)) :
    ∀ st : JumboScraper.State,
      (∀ p ∈ pages, (p.map JumboProduct.id).Nodup) →
      (st.output.map JumboProduct.id).Nodup →
      (∀ q ∈ st.output, q.id ∈ st.scraped_products) →
      (((JumboScraper.scrape (pages.map fun ps => [Attempt.ok ps]) st).1.output.map
        JumboProduct.id).Nodup) := by
  induction pages with
  | nil =>
    intro st _ hnd _
    simpa [JumboScraper.scrape, JumboScraper.save_progress] using hnd
  | cons page rest ih =>
    intro st hpages hnd hsub
    cases page with
    | nil =>
      simpa [JumboScraper.scrape, JumboScraper.scrape_page,
        JumboScraper.save_progress] using hnd
    | cons p ps =>
      have hpage : ((p :: ps).map JumboProduct.id).Nodup := hpages _ (by simp)
      simp only [List.map_cons, JumboScraper.scrape, JumboScraper.scrape_page]
      apply ih
      · intro q hq
        exact hpages q (by simp [hq])
      · -- the new output keys stay duplicate-free
        simp only [JumboScraper.save_progress, JumboScraper.accept_page,
          jumbo_write_products_eq_append, List.map_append]
        apply hnd.append
        · exact hpage.sublist (List.Sublist.map _ (List.filter_sublist _))
        · intro a ha hb
          obtain ⟨q, hq, rfl⟩ := List.mem_map.1 ha
          obtain ⟨q', hq', hq'eq⟩ := List.mem_map.1 hb
          have hq'new := List.mem_filter.1 hq'
          have : q'.id ∉ st.scraped_products := of_decide_eq_true hq'new.2
          exact this (hq'eq ▸ hsub q hq)
      · -- every output key is in the updated seen-set
        intro q hq
        simp only [JumboScraper.save_progress, JumboScraper.accept_page,
          jumbo_write_products_eq_append] at hq ⊢
        rcases List.mem_append.1 hq with h | h
        · exact Finset.mem_union_left _ (hsub q h)
        · exact Finset.mem_union_right _ (List.mem_toFinset.2 (List.mem_map_of_mem _ h))

/-- C1 (amended): for the Jumbo driver, each page is filtered through the
    SeenSet before appending, so as long as no single fetched page
    repeats a key within itself, no key appears twice in the stored
    output; a page repeating a key internally is stored with both copies,
    and the Plus scraper performs no SeenSet filtering at all. -/
theorem jumbo_output_keys_nodup (pages : List (List JumboProduct))
    (h : ∀ p ∈ pages, (p.map JumboProduct.id).Nodup) :
    (((JumboScraper.scrape (pages.map fun ps => [Attempt.ok ps])
        JumboScraper.initState).1.output.map JumboProduct.id).Nodup) :=
  jumbo_scrape_nodup_aux pages JumboScraper.initState h (by simp [JumboScraper.initState])
    (by simp [JumboScraper.initState])

/-- Witness for C1 (amended) at the two-page overlapping input
    page1 = ids 1,2 and page2 = ids 2,3. -/
theorem jumbo_output_keys_nodup_witness :
    (∀ p ∈ [[(⟨1⟩ : JumboProduct), ⟨2⟩], [⟨2⟩, ⟨3⟩]], (p.map JumboProduct.id).Nodup) ∧
    (((JumboScraper.scrape
        ([[(⟨1⟩ : JumboProduct), ⟨2⟩], [⟨2⟩, ⟨3⟩]].map fun ps => [Attempt.ok ps])
        JumboScraper.initState).1.output.map JumboProduct.id).Nodup) :=
  ⟨by decide, jumbo_output_keys_nodup [[⟨1⟩, ⟨2⟩], [⟨2⟩, ⟨3⟩]] (by decide)⟩

/-- C3 (amended): the Jumbo driver runs `save_progress` after every
    accepted page before fetching the next one, so at every loop boundary
    the persisted checkpoint equals the in-memory seen-set and offset —
    a crash re-does at most the one in-flight page; the AH scraper, by
    contrast, persists only at the very end of its run. -/
theorem jumbo_checkpoint_synced_at_page_boundaries (pages : List (List Attempt))
    (st s : JumboScraper.State) (h : s ∈ JumboScraper.scrape_trace pages st) :
    s.disk_scraped_products = s.scraped_products ∧ s.disk_last_offset = s.last_offset := by
  induction pages generalizing st with
  | nil => simp [JumboScraper.scrape_trace] at h
  | cons attempts rest ih =>
    simp only [JumboScraper.scrape_trace] at h
    split at h
    · rcases List.mem_cons.1 h with rfl | h'
      · exact ⟨rfl, rfl⟩
      · exact ih _ h'
    · simp at h

/-- Witness for C3 (amended): the state at the boundary after
    `jumboOnePage`'s accepted first page. -/
theorem jumbo_checkpoint_synced_witness :
    jumboOnePageState ∈ JumboScraper.scrape_trace jumboOnePage JumboScraper.initState ∧
    (jumboOnePageState.disk_scraped_products = jumboOnePageState.scraped_products ∧
      jumboOnePageState.disk_last_offset = jumboOnePageState.last_offset) :=
  ⟨by decide, jumbo_checkpoint_synced_at_page_boundaries jumboOnePage JumboScraper.initState
    jumboOnePageState (by decide)⟩

/-- Helper for C4: on a connector that always returns the same non-empty
    page, the Enhanced Jumbo category loop never exits, from any state. -/
theorem ej_const_fetch_never_exits (fuel : Nat) :
    ∀ st : EnhancedJumboScraper.State,
      EnhancedJumboScraper.scrape_category_pages ejConstFetch "Cat" fuel st = none := by
  induction fuel with
  | zero => intro st; rfl
  | succ n ih =>
    intro st
    simp only [EnhancedJumboScraper.scrape_category_pages, ejConstFetch]
    exact ih _

/-- C4 (counterexample): a mocked connector returning non-empty records
    with no cursor advance on every call does not halt the driver — the
    Enhanced Jumbo category loop runs forever on it (no fuel bound ever
    observes an exit). -/
theorem enhanced_jumbo_stalls_forever :
    EnhancedJumboScraper.loops_forever ejConstFetch "Cat" :=
  fun fuel => ej_const_fetch_never_exits fuel _

/-- C4 (amended): there is no progress-stall guard; whenever the Enhanced
    Jumbo category loop halts, it does so because the fetch at the final
    offset returned an empty product list (or an error return, which is
    modelled as the empty list) — those are the only exits. -/
theorem enhanced_jumbo_halts_only_on_empty_page (fetch : Nat → List EJProduct)
    (c : String) (fuel : Nat) (st s : EnhancedJumboScraper.State)
    (h : EnhancedJumboScraper.scrape_category_pages fetch c fuel st = some s) :
    fetch s.offset = [] := by
  induction fuel generalizing st with
  | zero => simp [EnhancedJumboScraper.scrape_category_pages] at h
  | succ n ih =>
    simp only [EnhancedJumboScraper.scrape_category_pages] at h
    split at h
    · cases h
      assumption
    · exact ih _ h

/-- Witness for C4 (amended): `ejStopFetch` exhausts after one page and
    the loop exits in `ejStopState`, where the fetch is indeed empty. -/
theorem enhanced_jumbo_halts_witness :
    EnhancedJumboScraper.scrape_category_pages ejStopFetch "c" 2 EnhancedJumboScraper.initState =
      some ejStopState ∧
    ejStopFetch ejStopState.offset = [] :=
  ⟨by decide, enhanced_jumbo_halts_only_on_empty_page ejStopFetch "c" 2
    EnhancedJumboScraper.initState ejStopState (by decide)⟩

/-- Helper for C8: folding `safe_scrape` appends exactly one summary
    entry per shop, in order, each determined only by that shop's own
    outcome. -/
theorem runner_fold_eq (behavior : String → ScraperRunner.ScrapeOutcome)
    (shops : List String) :
    ∀ acc : List (String × ScraperRunner.SummaryEntry),
      shops.foldl (fun acc shop => ScraperRunner.safe_scrape behavior shop acc) acc =
        acc ++ shops.map fun s => (s, ScraperRunner.entry_of (behavior s)) := by
  induction shops with
  | nil => intro acc; simp
  | cons s rest ih =>
    intro acc
    have hstep : ScraperRunner.safe_scrape behavior s acc =
        acc ++ [(s, ScraperRunner.entry_of (behavior s))] := by
      cases hb : behavior s <;>
        simp [ScraperRunner.safe_scrape, ScraperRunner.run_single_scraper,
          ScraperRunner.entry_of, hb]
    simp [List.foldl_cons, hstep, ih]

/-- Helper for C8: looking up a shop in the summary built per shop
    returns that shop's own entry. -/
theorem runner_lookup_map (g : String → ScraperRunner.SummaryEntry) :
    ∀ (shops : List String) (shop : String), shop ∈ shops →
      (shops.map fun s => (s, g s)).lookup shop = some (g shop) := by
  intro shops
  induction shops with
  | nil => intro shop h; simp at h
  | cons s rest ih =>
    intro shop h
    by_cases hs : shop = s
    · subst hs
      simp [List.lookup]
    · rcases List.mem_cons.1 h with rfl | h'
      · exact absurd rfl hs
      · have : (shop == s) = false := beq_false_of_ne hs
        simp [List.lookup, this, ih shop h']

/-- C8: per-source isolation of the orchestrator.  For any per-shop
    outcomes, the summary produced by `run_scrapers_parallel` has exactly
    one entry per launched shop, and every launched shop's entry is
    determined by its own outcome alone: a raising worker reports
    `failed` with count 0, a succeeding worker reports `success` with its
    own record count — regardless of what any other shop's worker did. -/
theorem runner_summary_isolated (behavior : String → ScraperRunner.ScrapeOutcome)
    (shops : List String) (shop : String) (h : shop ∈ shops) :
    (ScraperRunner.run_scrapers_parallel behavior shops).length = shops.length ∧
    (ScraperRunner.run_scrapers_parallel behavior shops).lookup shop =
      some (ScraperRunner.entry_of (behavior shop)) := by
  constructor
  · simp [ScraperRunner.run_scrapers_parallel, runner_fold_eq]
  · rw [ScraperRunner.run_scrapers_parallel, runner_fold_eq, List.nil_append]
    exact runner_lookup_map _ shops shop h

/-- Witness for C8: with the `ah` worker raising and the `jumbo` worker
    returning two records, `jumbo` still reports success with count 2. -/
theorem runner_summary_isolated_witness :
    ("jumbo" ∈ ["ah", "jumbo"]) ∧
    ((ScraperRunner.run_scrapers_parallel runnerBehavior ["ah", "jumbo"]).length =
        ["ah", "jumbo"].length ∧
      (ScraperRunner.run_scrapers_parallel runnerBehavior ["ah", "jumbo"]).lookup "jumbo" =
        some (ScraperRunner.entry_of (runnerBehavior "jumbo"))) :=
  ⟨by decide, runner_summary_isolated runnerBehavior ["ah", "jumbo"] "jumbo" (by decide)⟩

/-- C9: the Jumbo connector's hard pagination cap silently truncates.
    `search_products` raises `PaginationLimitReached` exactly when
    `page + 1 * size > 30`, and whenever the page-0 response reports more
    than 30 total products, `search_all_products` with the default size
    yields exactly the first page's data and returns normally — no error
    or truncation signal reaches the caller. -/
theorem jumbo_connector_silent_truncation (resp : Nat → JumboConnector.SearchPage)
    (page size : Nat) (h : 30 < (resp 0).total) :
    (JumboConnector.search_products resp page size = Except.error () ↔
      page + 1 * size > 30) ∧
    JumboConnector.search_all_products resp none = Except.ok (resp 0).data := by
  constructor
  · by_cases hc : page + 1 * size > 30 <;> simp [JumboConnector.search_products, hc]
  · have h2 : 2 ≤ JumboConnector.ceil_div (resp 0).total 30 := by
      rw [JumboConnector.ceil_div, Nat.le_div_iff_mul_le (by norm_num)]
      omega
    obtain ⟨m, hm⟩ : ∃ m, JumboConnector.ceil_div (resp 0).total 30 - 1 = m + 1 :=
      ⟨JumboConnector.ceil_div (resp 0).total 30 - 2, by omega⟩
    simp only [JumboConnector.search_all_products, JumboConnector.search_products]
    norm_num
    rw [hm]
    simp only [List.range']
    simp [JumboConnector.search_all_loop, JumboConnector.search_products]

/-- Witness for C9: a backend reporting 31 total products; the caller
    receives only the single first-page product, with no error. -/
theorem jumbo_connector_silent_truncation_witness :
    (30 < (resp31 0).total) ∧
    JumboConnector.search_all_products resp31 none = Except.ok (resp31 0).data :=
  ⟨by decide, (jumbo_connector_silent_truncation resp31 0 0 (by decide)).2⟩

/-- C7 (amended): each `write_products` call appends and leaves the
    already-stored records unchanged (for the Jumbo/Aldi rewrite style and
    for the AH create-then-extend style alike), and the Jumbo scraper
    preserves its output file across runs when resuming
    (`last_offset ≠ 0`); but the Jumbo scraper clears the file whenever
    the loaded `last_offset` is 0 and the Aldi scraper clears it
    unconditionally at startup, in both cases without any explicit
    fresh-run reset request. -/
theorem output_store_append_only_per_scraper (old new_products : List JumboProduct)
    (file : Option (List AHProduct)) (ps : List AHProduct)
    (prev : List AldiProduct) (progress : AldiScraper.ProgressContent)
    (lo : Nat) (hlo : lo ≠ 0) :
    (JumboScraper.write_products old new_products).take old.length = old ∧
    (AHScraper.write_products file ps).take (file.getD []).length = file.getD [] ∧
    JumboScraper.init_output_file old lo = old ∧
    (AldiScraper.init prev progress).output = [] := by
  refine ⟨?_, ?_, ?_, rfl⟩
  · rw [jumbo_write_products_eq_append]
    exact List.take_left old new_products
  · rw [AHScraper.write_products]
    exact List.take_left _ ps
  · simp [JumboScraper.init_output_file, hlo]

/-- Witness for C7 (amended) at a concrete resuming run. -/
theorem output_store_append_only_witness :
    ((30 : Nat) ≠ 0) ∧
    ((JumboScraper.write_products [⟨1⟩] [⟨2⟩]).take 1 = [⟨1⟩] ∧
      (AHScraper.write_products (some [⟨"a"⟩]) [⟨"b"⟩]).take 1 = [⟨"a"⟩] ∧
      JumboScraper.init_output_file [⟨1⟩] 30 = [⟨1⟩] ∧
      (AldiScraper.init [⟨"x"⟩] AldiScraper.ProgressContent.absent).output = []) :=
  ⟨by decide, output_store_append_only_per_scraper [⟨1⟩] [⟨2⟩] (some [⟨"a"⟩]) [⟨"b"⟩]
    [⟨"x"⟩] AldiScraper.ProgressContent.absent 30 (by decide)⟩
